import Mathlib

/-!
Verification development for the kscore transport/retry core
(`kscore/endpoint.py`, `kscore/stub.py`, `kscore/utils.py`).

The Python source is shallowly embedded: every stateful operation is
rendered as a pure function with explicit state passing, fallible code
returns `Except`/`Option`, and the external collaborators (event emitter,
transport session, response parser) are passed in as explicit function
parameters.  Wall-clock sleeping is recorded as an event in a trace
instead of being performed: `time.sleep(d)` suspends for at least `d`
seconds, so a recorded delay `d` is a lower bound on the real sleep.
-/

namespace KSCore

/-! ## Retry engine (`Endpoint._send_request`, `Endpoint._needs_retry`) -/

/-- Modelled from the spec: `first_non_none_response` lives in
`kscore/hooks.py`, which is not part of the sources here; the spec says the
retry decision takes the handler responses of the emitted retry-query event
and lets the "first non-empty result" win.  Given the ordered list of
handler results, return the first one that is not `none`. -/
def first_non_none_response {α : Type u} : List (Option α) → Option α
  | [] => none
  | none :: rest => first_non_none_response rest
  | some a :: _ => some a

/-- The external collaborators of `Endpoint._send_request`, bundled.
`createRequest` models `Endpoint.create_request` (build a request object
from the request dict, fire the request-created event, encode headers and
prepare it); `getResponse` models what `Endpoint._get_response` yields for
the freshly prepared request on a given attempt number; `emit` models
`event_emitter.emit` for the needs-retry event, returning the ordered list
of handler results. -/
structure RetryEnv (RD Req Op Resp Exc Delay : Type) where
  createRequest : RD → Op → Req
  getResponse : Req → Op → Nat → Option Resp × Option Exc
  emit : Option Resp → Op → Nat → Option Exc → List (Option Delay)

/-- `Endpoint._needs_retry`: emit the needs-retry event and take the first
non-none handler response.  `none` means "do not retry"; `some d` means
"sleep `d` seconds and retry" (the sleep itself is recorded by the caller's
trace). -/
def needs_retry {RD Req Op Resp Exc Delay : Type}
    (env : RetryEnv RD Req Op Resp Exc Delay) (attempts : Nat) (op : Op)
    (response : Option Resp) (caught_exception : Option Exc) : Option Delay :=
  first_non_none_response (env.emit response op attempts caught_exception)

/-- One observable step of the send loop: an HTTP send of a prepared
request, or an inter-attempt sleep of a given delay. -/
inductive RetryEvent (Req Delay : Type) where
  | send (request : Req)
  | sleep (delay : Delay)
  deriving DecidableEq

def RetryEvent.sentRequest {Req Delay : Type} : RetryEvent Req Delay → Option Req
  | .send r => some r
  | .sleep _ => none

def RetryEvent.sleptDelay {Req Delay : Type} : RetryEvent Req Delay → Option Delay
  | .sleep d => some d
  | .send _ => none

/-- The requests sent in a trace, in order. -/
def sendsOf {Req Delay : Type} (events : List (RetryEvent Req Delay)) : List Req :=
  events.filterMap RetryEvent.sentRequest

/-- The sleeps performed in a trace, in order. -/
def sleepsOf {Req Delay : Type} (events : List (RetryEvent Req Delay)) : List Delay :=
  events.filterMap RetryEvent.sleptDelay

/-- The `while self._needs_retry(...)` loop of `Endpoint._send_request`,
starting after the first attempt.  `st` is the current
`(success_response, exception)` pair and `attempts` the current attempt
counter.  Each iteration re-derives the request from the original
`request_dict` (the source calls `self.create_request(request_dict, ...)`
again after `request.reset_stream()`).  `fuel` bounds the number of loop
iterations so the embedding is total; `none` means the fuel ran out before
the retry hook declined. -/
def send_request_loop {RD Req Op Resp Exc Delay : Type}
    (env : RetryEnv RD Req Op Resp Exc Delay) (request_dict : RD) (op : Op) :
    Nat → Nat → Option Resp × Option Exc →
    Option (List (RetryEvent Req Delay) × (Option Resp × Option Exc))
  | 0, _, _ => none
  | fuel + 1, attempts, st =>
    match needs_retry env attempts op st.1 st.2 with
    | none => some ([], st)
    | some delay =>
      let request := env.createRequest request_dict op
      let st2 := env.getResponse request op (attempts + 1)
      match send_request_loop env request_dict op fuel (attempts + 1) st2 with
      | none => none
      | some (events, final) =>
        some (.sleep delay :: .send request :: events, final)

/-- `Endpoint._send_request` up to the final raise/return: perform the
first attempt (attempt counter starts at 1) and then run the retry loop.
Returns the trace of sends/sleeps together with the final
`(success_response, exception)` pair. -/
def send_request {RD Req Op Resp Exc Delay : Type}
    (env : RetryEnv RD Req Op Resp Exc Delay) (fuel : Nat)
    (request_dict : RD) (op : Op) :
    Option (List (RetryEvent Req Delay) × (Option Resp × Option Exc)) :=
  let request := env.createRequest request_dict op
  match send_request_loop env request_dict op fuel 1
      (env.getResponse request op 1) with
  | none => none
  | some (events, final) => some (.send request :: events, final)

/-- The value `Endpoint._send_request` delivers to its caller: if the final
attempt captured an exception it is raised (`Except.error`), otherwise the
final success response is returned (`Except.ok`). -/
def send_request_result {RD Req Op Resp Exc Delay : Type}
    (env : RetryEnv RD Req Op Resp Exc Delay) (fuel : Nat)
    (request_dict : RD) (op : Op) :
    Option (Except Exc (Option Resp)) :=
  (send_request env fuel request_dict op).map fun r =>
    match r.2.2 with
    | some e => Except.error e
    | none => Except.ok r.2.1

/-- `Endpoint.make_request` just logs and delegates to `_send_request`. -/
def make_request {RD Req Op Resp Exc Delay : Type}
    (env : RetryEnv RD Req Op Resp Exc Delay) (fuel : Nat)
    (op : Op) (request_dict : RD) :
    Option (Except Exc (Option Resp)) :=
  send_request_result env fuel request_dict op

theorem first_non_none_response_eq_none_iff {α : Type u} (rs : List (Option α)) :
    first_non_none_response rs = none ↔ ∀ r ∈ rs, r = none := by
  induction rs with
  | nil => simp [first_non_none_response]
  | cons head tail ih =>
    cases head with
    | none => simpa [first_non_none_response] using ih
    | some a => simp [first_non_none_response]

/-- While the retry hook keeps answering with delays `d a, d (a+1), ...`
for `N` consecutive queries and declines on query `a + N`, the loop makes
exactly `N` further sends, each of a request freshly derived from the
original request dict, sleeping exactly the returned delays in between. -/
theorem send_request_loop_delays {RD Req Op Resp Exc Delay : Type}
    (env : RetryEnv RD Req Op Resp Exc Delay) (request_dict : RD) (op : Op)
    (d : Nat → Delay) :
    ∀ (N a fuel : Nat) (st : Option Resp × Option Exc),
      (∀ resp exc k, a ≤ k → k < a + N →
        first_non_none_response (env.emit resp op k exc) = some (d k)) →
      (∀ resp exc, first_non_none_response (env.emit resp op (a + N) exc) = none) →
      N < fuel →
      ∃ events final,
        send_request_loop env request_dict op fuel a st = some (events, final) ∧
        sendsOf events = List.replicate N (env.createRequest request_dict op) ∧
        sleepsOf events = (List.range N).map (fun i => d (a + i)) := by
  intro N
  induction N with
  | zero =>
    intro a fuel st hdelays hstop hfuel
    obtain ⟨f, rfl⟩ : ∃ f, fuel = f + 1 := ⟨fuel - 1, by omega⟩
    refine ⟨[], st, ?_, by simp [sendsOf], by simp [sleepsOf]⟩
    have h := hstop st.1 st.2
    simp only [Nat.add_zero] at h
    simp [send_request_loop, needs_retry, h]
  | succ N ih =>
    intro a fuel st hdelays hstop hfuel
    obtain ⟨f, rfl⟩ : ∃ f, fuel = f + 1 := ⟨fuel - 1, by omega⟩
    have hretry : needs_retry env a op st.1 st.2 = some (d a) :=
      hdelays st.1 st.2 a le_rfl (by omega)
    obtain ⟨events, final, heq, hsends, hsleeps⟩ :=
      ih (a + 1) f (env.getResponse (env.createRequest request_dict op) op (a + 1))
        (fun resp exc k hk1 hk2 => hdelays resp exc k (by omega) (by omega))
        (fun resp exc => by
          have h := hstop resp exc
          rwa [show a + (N + 1) = a + 1 + N by omega] at h)
        (by omega)
    refine ⟨.sleep (d a) :: .send (env.createRequest request_dict op) :: events,
      final, ?_, ?_, ?_⟩
    · simp only [send_request_loop, hretry]
      rw [heq]
    · simp [sendsOf, RetryEvent.sentRequest] at hsends ⊢
      simp [hsends, List.replicate_succ]
    · simp [sleepsOf, RetryEvent.sleptDelay] at hsleeps ⊢
      rw [hsleeps, List.range_succ_eq_map, List.map_cons, List.map_map]
      refine List.cons_eq_cons.mpr ⟨by simp, ?_⟩
      refine List.map_congr_left fun i _ => ?_
      simp only [Function.comp_apply]
      congr 1
      omega

/-- C1: with a retry hook that always answers "no retry", `make_request`
performs exactly one send attempt; with a hook that returns delay `d k` on
query `k` for the first `N` queries and "no retry" on query `N + 1`, it
performs exactly `N + 1` send attempts, each attempt's prepared request
being derived afresh from the original request dict, and the inter-attempt
sleeps are exactly the returned delays (so the real suspensions are at
least those delays).  The always-no-retry case is `N = 0`. -/
theorem make_request_attempt_count {RD Req Op Resp Exc Delay : Type}
    (env : RetryEnv RD Req Op Resp Exc Delay) (request_dict : RD) (op : Op)
    (N : Nat) (d : Nat → Delay) (fuel : Nat)
    (hdelays : ∀ resp exc k, 1 ≤ k → k ≤ N →
      first_non_none_response (env.emit resp op k exc) = some (d k))
    (hstop : ∀ resp exc,
      first_non_none_response (env.emit resp op (N + 1) exc) = none)
    (hfuel : N < fuel) :
    ∃ events final,
      send_request env fuel request_dict op = some (events, final) ∧
      sendsOf events = List.replicate (N + 1) (env.createRequest request_dict op) ∧
      sleepsOf events = (List.range N).map (fun i => d (i + 1)) := by
  obtain ⟨events, final, heq, hsends, hsleeps⟩ :=
    send_request_loop_delays env request_dict op d N 1 fuel
      (env.getResponse (env.createRequest request_dict op) op 1)
      (fun resp exc k h1 h2 => hdelays resp exc k h1 (by omega))
      (fun resp exc => by
        have h := hstop resp exc
        rwa [show N + 1 = 1 + N by omega] at h)
      hfuel
  refine ⟨.send (env.createRequest request_dict op) :: events, final, ?_, ?_, ?_⟩
  · simp [send_request, heq]
  · simp [sendsOf, RetryEvent.sentRequest] at hsends ⊢
    simp [hsends, List.replicate_succ]
  · simp [sleepsOf, RetryEvent.sleptDelay] at hsleeps ⊢
    rw [hsleeps]
    congr 1
    funext i
    congr 1
    omega

/-- A concrete retry environment: the hook returns delay `k` on queries
`k = 1, 2` and declines on query `3`. -/
def envC1 : RetryEnv Nat Nat Nat Nat Nat Nat :=
  { createRequest := fun rd _ => rd + 100
    getResponse := fun req _ attempts => (some (req + attempts), none)
    emit := fun _ _ attempts _ => [if attempts ≤ 2 then some attempts else none] }

theorem make_request_attempt_count_witness :
    ∃ events final,
      send_request envC1 3 7 0 = some (events, final) ∧
      sendsOf events = List.replicate 3 (envC1.createRequest 7 0) ∧
      sleepsOf events = (List.range 2).map (fun i => i + 1) :=
  make_request_attempt_count envC1 7 0 2 (fun k => k) 3
    (fun _ _ k _ h2 => by simp [envC1, first_non_none_response, h2])
    (fun _ _ => by simp [envC1, first_non_none_response])
    (by omega)

/-- The loop invariant behind C4: if the loop ever stops (the hook
declined), the final `(success_response, exception)` pair is either the
state the loop started from (no further sends) or the result of
`_get_response` on the last attempt it made. -/
theorem send_request_loop_final {RD Req Op Resp Exc Delay : Type}
    (env : RetryEnv RD Req Op Resp Exc Delay) (request_dict : RD) (op : Op) :
    ∀ (fuel a : Nat) (st : Option Resp × Option Exc) events final,
      send_request_loop env request_dict op fuel a st = some (events, final) →
      (events = [] ∧ final = st) ∨
      (1 ≤ (sendsOf events).length ∧
        final = env.getResponse (env.createRequest request_dict op) op
          (a + (sendsOf events).length)) := by
  intro fuel
  induction fuel with
  | zero =>
    intro a st events final h
    simp [send_request_loop] at h
  | succ f ih =>
    intro a st events final h
    simp only [send_request_loop] at h
    cases hnr : needs_retry env a op st.1 st.2 with
    | none =>
      rw [hnr] at h
      simp at h
      exact Or.inl ⟨h.1, h.2.symm⟩
    | some delay =>
      rw [hnr] at h
      simp only at h
      cases hrec : send_request_loop env request_dict op f (a + 1)
          (env.getResponse (env.createRequest request_dict op) op (a + 1)) with
      | none => rw [hrec] at h; simp at h
      | some p =>
        obtain ⟨evs, fin⟩ := p
        rw [hrec] at h
        simp at h
        obtain ⟨hev, hfin⟩ := h
        rcases ih (a + 1) (env.getResponse (env.createRequest request_dict op) op (a + 1))
            evs fin hrec with ⟨hnil, hst⟩ | ⟨hlen, hval⟩
        · subst hnil
          refine Or.inr ⟨?_, ?_⟩
          · rw [← hev]; simp [sendsOf, RetryEvent.sentRequest]
          · rw [← hev, ← hfin, hst]
            simp [sendsOf, RetryEvent.sentRequest]
        · refine Or.inr ⟨?_, ?_⟩
          · rw [← hev]; simp [sendsOf, RetryEvent.sentRequest]
          · rw [← hev, ← hfin, hval]
            have hs : sendsOf (RetryEvent.sleep delay ::
                RetryEvent.send (env.createRequest request_dict op) :: evs)
                = env.createRequest request_dict op :: sendsOf evs := by
              simp [sendsOf, RetryEvent.sentRequest]
            rw [hs]
            simp only [List.length_cons]
            congr 1
            omega

/-- C4: whenever the retry hook declines within the available fuel, the
loop terminates with the final attempt's `(success_response, exception)`
pair: the pair returned is exactly `_get_response`'s result on the last
send attempt, and the caller then observes the captured exception raised
(`Except.error`) if there is one, otherwise the parsed success value
(`Except.ok`) — one outcome per top-level call, with no earlier attempt's
failure surfaced. -/
theorem send_request_final_attempt_outcome {RD Req Op Resp Exc Delay : Type}
    (env : RetryEnv RD Req Op Resp Exc Delay) (fuel : Nat)
    (request_dict : RD) (op : Op)
    (events : List (RetryEvent Req Delay)) (final : Option Resp × Option Exc)
    (h : send_request env fuel request_dict op = some (events, final)) :
    1 ≤ (sendsOf events).length ∧
    final = env.getResponse (env.createRequest request_dict op) op
      ((sendsOf events).length) ∧
    send_request_result env fuel request_dict op =
      some (match final.2 with
            | some e => Except.error e
            | none => Except.ok final.1) := by
  have hres : send_request_result env fuel request_dict op =
      some (match final.2 with
            | some e => Except.error e
            | none => Except.ok final.1) := by
    simp [send_request_result, h]
  simp only [send_request] at h
  rcases hrec : send_request_loop env request_dict op fuel 1
      (env.getResponse (env.createRequest request_dict op) op 1) with _ | ⟨evs, fin⟩
  · rw [hrec] at h; simp at h
  · rw [hrec] at h
    simp at h
    obtain ⟨hev, hfin⟩ := h
    subst hev
    subst hfin
    have hs : sendsOf (RetryEvent.send (env.createRequest request_dict op) :: evs)
        = env.createRequest request_dict op :: sendsOf evs := by
      simp [sendsOf, RetryEvent.sentRequest]
    refine ⟨by rw [hs]; simp, ?_, hres⟩
    rcases send_request_loop_final env request_dict op fuel 1
        (env.getResponse (env.createRequest request_dict op) op 1)
        evs fin hrec with ⟨hnil, hst⟩ | ⟨hlen, hval⟩
    · subst hnil
      rw [hst]
      simp [sendsOf, RetryEvent.sentRequest]
    · rw [hval, hs]
      simp only [List.length_cons]
      congr 1
      omega

/-- A concrete environment whose single attempt captures an exception and
whose hook never retries. -/
def envC4 : RetryEnv Nat Nat Nat Nat Nat Nat :=
  { createRequest := fun rd _ => rd
    getResponse := fun req _ attempts => (none, some (req + attempts))
    emit := fun _ _ _ _ => [none] }

theorem send_request_final_attempt_outcome_witness :
    1 ≤ (sendsOf ([RetryEvent.send 5] : List (RetryEvent Nat Nat))).length ∧
    ((none, some 6) : Option Nat × Option Nat) =
      envC4.getResponse (envC4.createRequest 5 0) 0
        (sendsOf ([RetryEvent.send 5] : List (RetryEvent Nat Nat))).length ∧
    send_request_result envC4 1 5 0 = some (Except.error 6) :=
  send_request_final_attempt_outcome envC4 1 5 0
    [RetryEvent.send 5] (none, some 6) rfl

/-- C10: the retry decision distinguishes only `none` from `some`, not
truthiness: the `needs-retry` verdict is "stop" exactly when every handler
result is `none`, and a first handler result equal to `0` seconds makes the
loop sleep `0` seconds and take another attempt. -/
theorem needs_retry_null_vs_zero {RD Req Op Resp Exc : Type}
    (env : RetryEnv RD Req Op Resp Exc ℚ) (request_dict : RD) (op : Op)
    (attempts fuel : Nat) (resp : Option Resp) (exc : Option Exc) :
    (needs_retry env attempts op resp exc = none ↔
      ∀ r ∈ env.emit resp op attempts exc, r = none) ∧
    (∀ rest, env.emit resp op attempts exc = some 0 :: rest →
      needs_retry env attempts op resp exc = some 0 ∧
      ∀ events final,
        send_request_loop env request_dict op fuel (attempts + 1)
          (env.getResponse (env.createRequest request_dict op) op (attempts + 1)) =
            some (events, final) →
        send_request_loop env request_dict op (fuel + 1) attempts (resp, exc) =
          some (RetryEvent.sleep 0 ::
            RetryEvent.send (env.createRequest request_dict op) :: events, final)) := by
  constructor
  · exact first_non_none_response_eq_none_iff (env.emit resp op attempts exc)
  · intro rest hrest
    have hnr : needs_retry env attempts op resp exc = some 0 := by
      rw [needs_retry, hrest]
      rfl
    refine ⟨hnr, ?_⟩
    intro events final hloop
    simp only [send_request_loop, hnr, hloop]

/-- A concrete environment whose hook answers `0` seconds on the first
query and declines afterwards. -/
def envC10 : RetryEnv Nat Nat Nat Nat Nat ℚ :=
  { createRequest := fun rd _ => rd
    getResponse := fun req _ attempts => (some (req + attempts), none)
    emit := fun _ _ attempts _ => [if attempts ≤ 1 then some 0 else none] }

theorem needs_retry_null_vs_zero_witness :
    needs_retry envC10 1 0 (none : Option Nat) (none : Option Nat) = some 0 ∧
    send_request_loop envC10 3 0 2 1
        ((none : Option Nat), (none : Option Nat)) =
      some ([RetryEvent.sleep 0, RetryEvent.send 3], (some 5, none)) := by
  have h := (needs_retry_null_vs_zero envC10 3 0 1 1 none none).2 [] rfl
  exact ⟨h.1, h.2 [] (some 5, none) rfl⟩

/-! ## Transport failure classification (`Endpoint._get_response`) and
response conversion (`convert_to_response_dict`) -/

/-- The failed request attached to a transport exception (only its URL is
consulted by the classification). -/
structure KsRequest where
  url : String
  deriving DecidableEq

/-- `requests.exceptions.ConnectionError` as the endpoint inspects it: its
textual rendering `str(e)` as a character list, and its `request`
attribute, which may be `None`. -/
structure ConnError where
  msg : List Char
  request : Option KsRequest
  deriving DecidableEq

/-- A transport-level exception: the transport's `ConnectionError`, or an
exception of any other type (kept abstract as `O`, matching the broad
`except Exception` catch). -/
inductive TransportException (O : Type) where
  | connError (e : ConnError)
  | other (e : O)
  deriving DecidableEq

/-- The exceptions `Endpoint._get_response` captures: the two classified
kinds, or the original transport exception re-raised unchanged. -/
inductive RaisedException (O : Type) where
  | endpointConnectionError (endpoint_url : String) (error : ConnError)
  | connectionClosedError (endpoint_url : String) (request : KsRequest)
  | raw (e : TransportException O)
  deriving DecidableEq

/-- Python's `needle in haystack` substring test on strings. -/
def containsSubstring (needle : List Char) : List Char → Bool
  | [] => needle.isEmpty
  | c :: rest => needle.isPrefixOf (c :: rest) || containsSubstring needle rest

/-- `Endpoint._looks_like_dns_error`:
`'gaierror' in str(e) and e.request is not None`. -/
def looks_like_dns_error (e : ConnError) : Bool :=
  containsSubstring "gaierror".toList e.msg && e.request.isSome

/-- `Endpoint._looks_like_bad_status_line`:
`'BadStatusLine' in str(e) and e.request is not None`. -/
def looks_like_bad_status_line (e : ConnError) : Bool :=
  containsSubstring "BadStatusLine".toList e.msg && e.request.isSome

/-- `e.request.url`, defined under the guard `e.request is not None`. -/
def request_url (e : ConnError) : String :=
  (e.request.map KsRequest.url).getD ""

/-- The slice of an operation model the endpoint consults
(`name`, `protocol`, `output_shape`, `has_streaming_output`);
`S` is the (external) shape type. -/
structure OperationModel (S : Type) where
  name : String
  protocol : String
  output_shape : Option S
  has_streaming_output : Bool

/-- The transport's HTTP response object: headers, status code, the fully
buffered `content` (of abstract byte type `B`) and the lazy `raw` stream
(of abstract type `R`). -/
structure HttpResponse (B R : Type) where
  headers : List (String × String)
  status_code : Nat
  content : B
  raw : R

/-- The body slot of a response dict: fully buffered bytes, or a
`StreamingBody` wrapping the raw stream and the content-length header. -/
inductive BodyRepr (B R : Type) where
  | buffered (content : B)
  | streaming (raw : R) (content_length : Option String)
  deriving DecidableEq

/-- The response dict produced by `convert_to_response_dict`. -/
structure ResponseDict (B R : Type) where
  headers : List (String × String)
  status_code : Nat
  body : BodyRepr B R
  deriving DecidableEq

/-- Case-insensitive header lookup (the requests library stores response
headers in a case-insensitive dict). -/
def headers_get (headers : List (String × String)) (key : String) : Option String :=
  (headers.find? fun p => p.1.toLower == key.toLower).map Prod.snd

/-- `convert_to_response_dict`: status ≥ 300 buffers the body; otherwise a
streaming operation gets a `StreamingBody` over the raw stream; otherwise
the body is buffered. -/
def convert_to_response_dict {B R S : Type} (http_response : HttpResponse B R)
    (operation_model : OperationModel S) : ResponseDict B R :=
  if 300 ≤ http_response.status_code then
    { headers := http_response.headers
      status_code := http_response.status_code
      body := BodyRepr.buffered http_response.content }
  else if OperationModel.has_streaming_output operation_model then
    { headers := http_response.headers
      status_code := http_response.status_code
      body := BodyRepr.streaming http_response.raw
        (headers_get http_response.headers "content-length") }
  else
    { headers := http_response.headers
      status_code := http_response.status_code
      body := BodyRepr.buffered http_response.content }

/-- What `http_session.send` did on one attempt: returned an HTTP response
or raised a transport exception. -/
inductive SendOutcome (B R O : Type) where
  | response (r : HttpResponse B R)
  | raises (e : TransportException O)

/-- `Endpoint._get_response` for one attempt, as a function of the send
outcome: classify a `ConnectionError` by its textual signature (DNS shape,
bad-status-line shape, else re-raise unchanged), capture any other
exception unchanged, and on success convert the response and parse it with
the protocol-specific parser.  Returns the
`(success_response, exception)` pair; `attempts` is accepted but, as in
the source, not consulted. -/
def get_response {B R O S Parsed : Type}
    (createParser : String → ResponseDict B R → Option S → Parsed)
    (operation_model : OperationModel S) (attempts : Nat)
    (outcome : SendOutcome B R O) :
    Option (HttpResponse B R × Parsed) × Option (RaisedException O) :=
  match outcome with
  | .raises (.connError e) =>
    if looks_like_dns_error e then
      (none, some (.endpointConnectionError (request_url e) e))
    else if looks_like_bad_status_line e then
      (none, some (.connectionClosedError (request_url e)
        (e.request.getD { url := "" })))
    else
      (none, some (.raw (.connError e)))
  | .raises (.other o) => (none, some (.raw (.other o)))
  | .response http_response =>
    let response_dict := convert_to_response_dict http_response operation_model
    (some (http_response,
        createParser (OperationModel.protocol operation_model) response_dict
          (OperationModel.output_shape operation_model)),
      none)

/-- C3: the converted response buffers the body exactly when the status is
≥ 300 or the operation does not declare streaming output, and yields a
lazy stream exactly when the status is < 300 and the operation declares
streaming output; headers and status pass through unchanged. -/
theorem convert_to_response_dict_buffering {B R S : Type}
    (http_response : HttpResponse B R) (operation_model : OperationModel S) :
    ((convert_to_response_dict http_response operation_model).body =
        BodyRepr.buffered http_response.content ↔
      (300 ≤ http_response.status_code ∨
        OperationModel.has_streaming_output operation_model = false)) ∧
    ((convert_to_response_dict http_response operation_model).body =
        BodyRepr.streaming http_response.raw
          (headers_get http_response.headers "content-length") ↔
      (http_response.status_code < 300 ∧
        OperationModel.has_streaming_output operation_model = true)) ∧
    (convert_to_response_dict http_response operation_model).headers =
      http_response.headers ∧
    (convert_to_response_dict http_response operation_model).status_code =
      http_response.status_code := by
  unfold convert_to_response_dict
  split_ifs with h3 hs
  · refine ⟨by simp [h3], ?_, rfl, rfl⟩
    constructor
    · intro hbody
      exact absurd hbody (by simp)
    · rintro ⟨hlt, _⟩
      omega
  · refine ⟨?_, ?_, rfl, rfl⟩
    · constructor
      · intro hbody
        exact absurd hbody (by simp)
      · rintro (hge | hfalse)
        · omega
        · rw [hs] at hfalse
          exact absurd hfalse (by simp)
    · simp [hs]
      omega
  · refine ⟨by simp [hs], ?_, rfl, rfl⟩
    constructor
    · intro hbody
      exact absurd hbody (by simp)
    · rintro ⟨_, htrue⟩
      rw [htrue] at hs
      exact absurd rfl hs

/-- C2: on any attempt, a transport `ConnectionError` whose textual
signature matches the DNS shape is captured as an endpoint-connection
error carrying the failed request URL, and never as the raw transport
exception. -/
theorem dns_shaped_failure_surfaced {B R O S Parsed : Type}
    (createParser : String → ResponseDict B R → Option S → Parsed)
    (operation_model : OperationModel S) (attempts : Nat)
    (e : ConnError) (req : KsRequest)
    (hdns : looks_like_dns_error e = true)
    (hreq : e.request = some req) :
    get_response createParser operation_model attempts
        (SendOutcome.raises (B := B) (R := R) (O := O)
          (TransportException.connError e)) =
      (none, some (RaisedException.endpointConnectionError (KsRequest.url req) e)) ∧
    ∀ te : TransportException O,
      (get_response createParser operation_model attempts
          (SendOutcome.raises (B := B) (R := R) (O := O)
            (TransportException.connError e))).2 ≠
        some (RaisedException.raw te) := by
  have h1 : get_response createParser operation_model attempts
      (SendOutcome.raises (B := B) (R := R) (O := O)
        (TransportException.connError e)) =
      (none, some (RaisedException.endpointConnectionError (KsRequest.url req) e)) := by
    simp [get_response, hdns, request_url, hreq]
  refine ⟨h1, fun te => ?_⟩
  rw [h1]
  simp

/-- C8: classification touches only `ConnectionError`s with a non-null
`request`: a `ConnectionError` with a null `request` (whatever its
message), a `ConnectionError` matching neither signature, and any
exception of another type are all captured unchanged — never converted to
an endpoint-connection or connection-closed error. -/
theorem transport_errors_reraised_unchanged {B R O S Parsed : Type}
    (createParser : String → ResponseDict B R → Option S → Parsed)
    (operation_model : OperationModel S) (attempts : Nat) :
    (∀ e : ConnError, e.request = none →
      get_response createParser operation_model attempts
          (SendOutcome.raises (B := B) (R := R) (O := O)
            (TransportException.connError e)) =
        (none, some (RaisedException.raw (TransportException.connError e)))) ∧
    (∀ e : ConnError,
      containsSubstring "gaierror".toList e.msg = false →
      containsSubstring "BadStatusLine".toList e.msg = false →
      get_response createParser operation_model attempts
          (SendOutcome.raises (B := B) (R := R) (O := O)
            (TransportException.connError e)) =
        (none, some (RaisedException.raw (TransportException.connError e)))) ∧
    (∀ o : O,
      get_response createParser operation_model attempts
          (SendOutcome.raises (B := B) (R := R) (O := O)
            (TransportException.other o)) =
        (none, some (RaisedException.raw (TransportException.other o)))) := by
  refine ⟨?_, ?_, ?_⟩
  · intro e hreq
    simp [get_response, looks_like_dns_error, looks_like_bad_status_line, hreq]
  · intro e h1 h2
    have hd : looks_like_dns_error e = false := by
      rw [looks_like_dns_error, h1, Bool.false_and]
    have hb : looks_like_bad_status_line e = false := by
      rw [looks_like_bad_status_line, h2, Bool.false_and]
    simp [get_response, hd, hb]
  · intro o
    rfl

/-- A trivial parser for witness instantiations. -/
def cp0 : String → ResponseDict Nat Nat → Option Nat → Nat := fun _ _ _ => 0

/-- A concrete non-streaming operation model for witness instantiations. -/
def op0 : OperationModel Nat :=
  { name := "DescribeThing", protocol := "json", output_shape := none
    has_streaming_output := false }

/-- A DNS-shaped connection error with an attached request. -/
def connErrorDns : ConnError :=
  { msg := ("ConnectionError caused by gaierror(-2, " ++
      "Name or service not known)").toList
    request := some { url := "https://svc.example.com/op" } }

theorem dns_shaped_failure_surfaced_witness :
    get_response (O := Nat) cp0 op0 2
        (SendOutcome.raises (TransportException.connError connErrorDns)) =
      (none, some (RaisedException.endpointConnectionError
        (KsRequest.url { url := "https://svc.example.com/op" }) connErrorDns)) ∧
    ∀ te : TransportException Nat,
      (get_response cp0 op0 2
          (SendOutcome.raises (TransportException.connError connErrorDns))).2 ≠
        some (RaisedException.raw te) :=
  dns_shaped_failure_surfaced cp0 op0 2 connErrorDns
    { url := "https://svc.example.com/op" } (by decide) rfl

/-- A DNS-worded connection error whose `request` attribute is null. -/
def connErrorNoRequest : ConnError :=
  { msg := "ConnectionError caused by gaierror(-2)".toList
    request := none }

/-- A connection error matching neither textual signature. -/
def connErrorReset : ConnError :=
  { msg := "ConnectionError: connection reset by peer".toList
    request := some { url := "https://svc.example.com/op" } }

theorem transport_errors_reraised_unchanged_witness :
    (get_response (O := Nat) cp0 op0 1
        (SendOutcome.raises (TransportException.connError connErrorNoRequest)) =
      (none, some (RaisedException.raw
        (TransportException.connError connErrorNoRequest)))) ∧
    (get_response (O := Nat) cp0 op0 1
        (SendOutcome.raises (TransportException.connError connErrorReset)) =
      (none, some (RaisedException.raw
        (TransportException.connError connErrorReset)))) ∧
    (get_response (O := Nat) cp0 op0 1
        (SendOutcome.raises (TransportException.other 7)) =
      (none, some (RaisedException.raw (TransportException.other 7)))) :=
  ⟨(transport_errors_reraised_unchanged cp0 op0 1).1 connErrorNoRequest rfl,
   (transport_errors_reraised_unchanged cp0 op0 1).2.1 connErrorReset
     (by decide) (by decide),
   (transport_errors_reraised_unchanged cp0 op0 1).2.2 7⟩

/-! ## Stub harness (`kscore/stub.py`) -/

/-- The failures the stubber raises: `ParamValidationError` from response
validation, `StubResponseError` for unexpected calls and operation
mismatches, `StubAssertionError` for expected-parameter mismatches, and
the `ValueError` for unknown client methods.  `P` is the type of call
parameter dicts. -/
inductive StubberError (P : Type) where
  | paramValidation (report : String)
  | unexpectedCall (operation_name : String) (params : P)
  | operationMismatch (operation_name : String) (found : Option String)
  | parameterMismatch (operation_name : String) (expected received : P)
  | noSuchMethod (method : String)
  deriving DecidableEq

/-- One queued stub entry: the operation name recorded from
`method_to_api_mapping.get(method)` (hence optional), the canned response
of abstract type `R`, and the optional expected parameters. -/
structure StubEntry (P R : Type) where
  operation_name : Option String
  response : R
  expected_params : Option P
  deriving DecidableEq

/-- `Stubber._assert_expected_call_order`: raise an unexpected-call error
on an empty queue, an operation-mismatch error when the head entry's
operation name differs from the invoked operation, and otherwise hand back
the head entry. -/
def assert_expected_call_order {P R : Type} (queue : List (StubEntry P R))
    (model_name : String) (params : P) :
    Except (StubberError P) (StubEntry P R) :=
  match queue with
  | [] => .error (.unexpectedCall model_name params)
  | entry :: _ =>
    if entry.operation_name ≠ some model_name then
      .error (.operationMismatch model_name entry.operation_name)
    else
      .ok entry

/-- `Stubber._get_response_handler`: check the call order, then pop the
head entry and return its canned response together with the remaining
queue. -/
def get_response_handler {P R : Type} (queue : List (StubEntry P R))
    (model_name : String) (params : P) :
    Except (StubberError P) (R × List (StubEntry P R)) :=
  match assert_expected_call_order queue model_name params with
  | .error err => .error err
  | .ok entry => .ok (entry.response, queue.tail)

/-- `Stubber._assert_expected_params`: check the call order, then compare
the actual parameters against the head entry's `expected_params` when the
latter is non-null. -/
def assert_expected_params {P R : Type} [DecidableEq P]
    (queue : List (StubEntry P R)) (model_name : String) (params : P) :
    Except (StubberError P) Unit :=
  match assert_expected_call_order queue model_name params with
  | .error err => .error err
  | .ok entry =>
    match entry.expected_params with
    | none => .ok ()
    | some expected =>
      if params ≠ expected then
        .error (.parameterMismatch model_name expected params)
      else
        .ok ()

/-- One invocation of a stubbed client method while the stubber is active:
the before-parameter-build hook (`_assert_expected_params`) fires first,
then the before-call hook (`_get_response_handler`), which pops the entry
only after both checks passed. -/
def stubbed_call {P R : Type} [DecidableEq P] (queue : List (StubEntry P R))
    (model_name : String) (params : P) :
    Except (StubberError P) (R × List (StubEntry P R)) :=
  match assert_expected_params queue model_name params with
  | .error err => .error err
  | .ok _ => get_response_handler queue model_name params

/-- `Stubber.assert_no_pending_responses`. -/
def assert_no_pending_responses {P R : Type} (queue : List (StubEntry P R)) :
    Except String Unit :=
  if queue.length ≠ 0 then
    .error (toString queue.length ++ " responses remaining in queue.")
  else
    .ok ()

/-- C5: invoking the stubbed client fails with an unexpected-call error on
an empty queue, with an operation-mismatch error when the invoked
operation differs from the head entry's, and with a parameter-mismatch
error when the head entry's `expected_params` is non-null and unequal to
the actual parameters; otherwise the head entry is popped exactly once and
its canned response is returned. -/
theorem stubbed_call_cases {P R : Type} [DecidableEq P]
    (queue : List (StubEntry P R)) (model_name : String) (params : P) :
    (queue = [] →
      stubbed_call queue model_name params =
        .error (.unexpectedCall model_name params)) ∧
    (∀ entry rest, queue = entry :: rest →
      entry.operation_name ≠ some model_name →
      stubbed_call queue model_name params =
        .error (.operationMismatch model_name entry.operation_name)) ∧
    (∀ entry rest expected, queue = entry :: rest →
      entry.operation_name = some model_name →
      entry.expected_params = some expected →
      params ≠ expected →
      stubbed_call queue model_name params =
        .error (.parameterMismatch model_name expected params)) ∧
    (∀ entry rest, queue = entry :: rest →
      entry.operation_name = some model_name →
      (entry.expected_params = none ∨ entry.expected_params = some params) →
      stubbed_call queue model_name params = .ok (entry.response, rest)) := by
  refine ⟨?_, ?_, ?_, ?_⟩
  · rintro rfl
    rfl
  · rintro entry rest rfl hne
    simp [stubbed_call, assert_expected_params, assert_expected_call_order, hne]
  · rintro entry rest expected rfl hop hexp hne
    simp [stubbed_call, assert_expected_params, assert_expected_call_order,
      get_response_handler, hop, hexp, hne]
  · rintro entry rest rfl hop hexp
    rcases hexp with hnone | hsome
    · simp [stubbed_call, assert_expected_params, assert_expected_call_order,
        get_response_handler, hop, hnone]
    · simp [stubbed_call, assert_expected_params, assert_expected_call_order,
        get_response_handler, hop, hsome]

/-- A concrete stub entry for the C5 witness. -/
def entry0 : StubEntry Nat Nat :=
  { operation_name := some "Describe", response := 42, expected_params := some 5 }

theorem stubbed_call_cases_witness :
    stubbed_call ([] : List (StubEntry Nat Nat)) "Describe" 5 =
      .error (.unexpectedCall "Describe" 5) ∧
    stubbed_call [entry0] "Other" 5 =
      .error (.operationMismatch "Other" entry0.operation_name) ∧
    stubbed_call [entry0] "Describe" 6 =
      .error (.parameterMismatch "Describe" 5 6) ∧
    stubbed_call [entry0] "Describe" 5 = .ok (entry0.response, []) :=
  ⟨(stubbed_call_cases [] "Describe" 5).1 rfl,
   (stubbed_call_cases [entry0] "Other" 5).2.1 entry0 [] rfl (by decide),
   (stubbed_call_cases [entry0] "Describe" 6).2.2.1 entry0 [] 5 rfl rfl rfl
     (by decide),
   (stubbed_call_cases [entry0] "Describe" 5).2.2.2 entry0 [] rfl rfl
     (Or.inr rfl)⟩

/-- Modelled from the spec: the output shape consumed by the stub
validator.  The shape model and `kscore/validate.py` are not among the
sources here; per the spec the validator only needs to know which fields
the shape requires. -/
structure Shape where
  required_members : List String
  deriving DecidableEq

/-- `key in d` on a Python dict rendered as an association list. -/
def hasKey {V : Type} (d : List (String × V)) (key : String) : Bool :=
  d.any fun p => p.1 == key

/-- Removing a key from (a copy of) a dict. -/
def removeKey {V : Type} (d : List (String × V)) (key : String) :
    List (String × V) :=
  d.filter fun p => p.1 != key

/-- Modelled from the spec: `validate_parameters` (`kscore/validate.py`) is
not among the sources here; per the spec the shape validator "fails with a
parameter-validation error listing the offending path(s)" when the shape
requires fields absent from the response body. -/
def validate_parameters {V P : Type} (params : List (String × V))
    (shape : Shape) : Except (StubberError P) Unit :=
  match shape.required_members.filter (fun k => !(hasKey params k)) with
  | [] => .ok ()
  | missing => .error (.paramValidation (String.intercalate ", " missing))

/-- The shape check of `Stubber._validate_response` after the
`ResponseMetadata` strip: validate against a declared output shape, or
require the remaining response to be empty when no output shape is
declared. -/
def validate_stripped {V P : Type} (output_shape : Option Shape)
    (response : List (String × V)) : Except (StubberError P) Unit :=
  match output_shape with
  | some shape => validate_parameters response shape
  | none =>
    if response.isEmpty then
      .ok ()
    else
      .error (.paramValidation
        "Service response should only contain ResponseMetadata.")

/-- `Stubber._validate_response`: when the service response carries a
`ResponseMetadata` key, validation runs on a copy with that key deleted;
the caller's mapping is never modified. -/
def validate_response {V P : Type} (output_shape : Option Shape)
    (service_response : List (String × V)) : Except (StubberError P) Unit :=
  let response :=
    if hasKey service_response "ResponseMetadata" then
      removeKey service_response "ResponseMetadata"
    else
      service_response
  validate_stripped output_shape response

/-- The synthetic `requests.models.Response` built by `_add_response`. -/
structure StubHttpResponse where
  status_code : Nat
  reason : String
  deriving DecidableEq

/-- The slice of the stubbed client `_add_response` consults:
`hasattr(client, method)`, `meta.method_to_api_mapping.get(method)`, and
`service_model.operation_model(name).output_shape`. -/
structure StubClientModel where
  has_method : String → Bool
  method_to_api_mapping : String → Option String
  output_shape : Option String → Option Shape

/-- `Stubber._add_response` acting on the queue: reject unknown methods,
validate the service response against the operation's output shape, and
append a success entry pairing a synthetic 200 OK response with the
caller's original service response. -/
def add_response {V P : Type} (client : StubClientModel)
    (queue : List (StubEntry P (StubHttpResponse × List (String × V))))
    (method : String) (service_response : List (String × V))
    (expected_params : Option P) :
    Except (StubberError P)
      (List (StubEntry P (StubHttpResponse × List (String × V)))) :=
  if !(client.has_method method) then
    .error (.noSuchMethod method)
  else
    let operation_name := client.method_to_api_mapping method
    match validate_response (P := P) (client.output_shape operation_name)
        service_response with
    | .error err => .error err
    | .ok _ =>
      .ok (queue ++
        [{ operation_name := operation_name
           response := ({ status_code := 200, reason := "OK" },
             service_response)
           expected_params := expected_params }])

theorem removeKey_of_not_hasKey {V : Type} (d : List (String × V))
    (key : String) (h : hasKey d key = false) : removeKey d key = d := by
  induction d with
  | nil => rfl
  | cons p rest ih =>
    simp only [hasKey, List.any_cons, Bool.or_eq_false_iff] at h
    have h2 : removeKey rest key = rest := ih (by simp [hasKey, h.2])
    have h1 : (p.1 != key) = true := by
      simp only [bne, Bool.not_eq_true']
      exact h.1
    simp [removeKey, List.filter_cons, h1] at h2 ⊢
    exact h2

/-- `_validate_response` always behaves as the stripped-copy check: when
the key is absent the strip is the identity, when it is present the copy
is validated. -/
theorem validate_response_eq_stripped {V P : Type} (output_shape : Option Shape)
    (service_response : List (String × V)) :
    validate_response (P := P) output_shape service_response =
      validate_stripped output_shape
        (removeKey service_response "ResponseMetadata") := by
  unfold validate_response
  by_cases h : hasKey service_response "ResponseMetadata" = true
  · simp [h]
  · have h0 : hasKey service_response "ResponseMetadata" = false := by
      simpa using h
    simp [h0, removeKey_of_not_hasKey service_response "ResponseMetadata" h0]

/-- C6 (amended): `add_response` validates the service response against
the operation's declared output shape after stripping any
`ResponseMetadata` key: it fails with a parameter-validation error when
the shape requires a field absent from the stripped response, or when the
operation declares no output shape and the stripped response is non-empty;
when the operation declares no output shape and the stripped response is
empty, it succeeds and enqueues a success entry. -/
theorem add_response_validates_stripped {V P : Type} (client : StubClientModel)
    (queue : List (StubEntry P (StubHttpResponse × List (String × V))))
    (method : String) (service_response : List (String × V))
    (expected_params : Option P)
    (hm : client.has_method method = true) :
    (∀ shape field,
      client.output_shape (client.method_to_api_mapping method) = some shape →
      field ∈ Shape.required_members shape →
      hasKey (removeKey service_response "ResponseMetadata") field = false →
      ∃ report,
        add_response client queue method service_response expected_params =
          .error (.paramValidation report)) ∧
    (client.output_shape (client.method_to_api_mapping method) = none →
      removeKey service_response "ResponseMetadata" = [] →
      add_response client queue method service_response expected_params =
        .ok (queue ++
          [{ operation_name := client.method_to_api_mapping method
             response := ({ status_code := 200, reason := "OK" },
               service_response)
             expected_params := expected_params }])) ∧
    (client.output_shape (client.method_to_api_mapping method) = none →
      removeKey service_response "ResponseMetadata" ≠ [] →
      ∃ report,
        add_response client queue method service_response expected_params =
          .error (.paramValidation report)) := by
  have hv := validate_response_eq_stripped (P := P)
    (client.output_shape (client.method_to_api_mapping method)) service_response
  refine ⟨?_, ?_, ?_⟩
  · intro shape field hshape hfield hmissing
    have hbad : shape.required_members.filter
        (fun k => !(hasKey (removeKey service_response "ResponseMetadata") k)) ≠ [] := by
      intro hnil
      have hmem : field ∈ shape.required_members.filter
          (fun k => !(hasKey (removeKey service_response "ResponseMetadata") k)) := by
        simp [List.mem_filter, hfield, hmissing]
      rw [hnil] at hmem
      simp at hmem
    rcases hfilter : shape.required_members.filter
        (fun k => !(hasKey (removeKey service_response "ResponseMetadata") k)) with
      _ | ⟨m, ms⟩
    · exact absurd hfilter hbad
    · refine ⟨String.intercalate ", " (m :: ms), ?_⟩
      simp only [add_response, hm, Bool.not_true, Bool.false_eq_true, if_false]
      rw [hv, hshape]
      simp [validate_stripped, validate_parameters, hfilter]
  · intro hshape hempty
    simp only [add_response, hm, Bool.not_true, Bool.false_eq_true, if_false]
    rw [hv, hshape, hempty]
    simp [validate_stripped]
  · intro hshape hne
    refine ⟨"Service response should only contain ResponseMetadata.", ?_⟩
    simp only [add_response, hm, Bool.not_true, Bool.false_eq_true, if_false]
    rw [hv, hshape]
    simp [validate_stripped, hne]

/-- A client with one method mapped to an operation declaring no output
shape. -/
def clientNoShape : StubClientModel :=
  { has_method := fun m => m == "describe"
    method_to_api_mapping := fun m =>
      if m == "describe" then some "Describe" else none
    output_shape := fun _ => none }

/-- A client with one method mapped to an operation whose output shape
requires the field "Things". -/
def clientWithShape : StubClientModel :=
  { has_method := fun m => m == "list_things"
    method_to_api_mapping := fun m =>
      if m == "list_things" then some "ListThings" else none
    output_shape := fun name =>
      if name = some "ListThings" then
        some { required_members := ["Things"] }
      else
        none }

theorem add_response_validates_stripped_witness :
    (∃ report, add_response (P := Nat) clientWithShape [] "list_things"
        ([("Other", 3)] : List (String × Nat)) none =
      .error (.paramValidation report)) ∧
    (add_response (P := Nat) clientNoShape [] "describe"
        ([] : List (String × Nat)) none =
      .ok ([] ++
        [{ operation_name := StubClientModel.method_to_api_mapping clientNoShape "describe"
           response := ({ status_code := 200, reason := "OK" }, [])
           expected_params := none }])) ∧
    (∃ report, add_response (P := Nat) clientNoShape [] "describe"
        ([("Extra", 1)] : List (String × Nat)) none =
      .error (.paramValidation report)) :=
  ⟨(add_response_validates_stripped clientWithShape [] "list_things"
        [("Other", 3)] none rfl).1
      { required_members := ["Things"] } "Things" (by decide) (by decide)
      (by decide),
   (add_response_validates_stripped clientNoShape [] "describe" [] none
        rfl).2.1 rfl rfl,
   (add_response_validates_stripped clientNoShape [] "describe" [("Extra", 1)]
        none rfl).2.2 rfl (by decide)⟩

/-- C6 counterexample: for an operation with no declared output shape, a
non-empty service response consisting solely of the `ResponseMetadata`
envelope is accepted and enqueued by `add_response`, although the claim as
stated requires every non-empty response body to be rejected when the
operation declares no output shape. -/
theorem add_response_metadata_only_accepted :
    StubClientModel.output_shape clientNoShape
        (StubClientModel.method_to_api_mapping clientNoShape "describe") = none ∧
    ([("ResponseMetadata", 1)] : List (String × Nat)) ≠ [] ∧
    add_response (P := Nat) clientNoShape [] "describe"
        [("ResponseMetadata", 1)] none =
      .ok [{ operation_name := some "Describe"
             response := ({ status_code := 200, reason := "OK" },
               [("ResponseMetadata", 1)])
             expected_params := none }] := by
  exact ⟨rfl, by simp, rfl⟩

/-- C9: `add_response` never mutates the caller's response mapping: the
shape check runs on a copy with the `ResponseMetadata` key removed, while
the entry enqueued for replay carries the original mapping with its
`ResponseMetadata` key intact. -/
theorem add_response_preserves_caller_mapping {V P : Type}
    (client : StubClientModel)
    (queue : List (StubEntry P (StubHttpResponse × List (String × V))))
    (method : String) (service_response : List (String × V))
    (expected_params : Option P)
    (hmeta : hasKey service_response "ResponseMetadata" = true) :
    (validate_response (P := P)
        (client.output_shape (client.method_to_api_mapping method))
        service_response =
      validate_stripped
        (client.output_shape (client.method_to_api_mapping method))
        (removeKey service_response "ResponseMetadata")) ∧
    (∀ q2, add_response client queue method service_response expected_params =
        .ok q2 →
      q2 = queue ++
        [{ operation_name := client.method_to_api_mapping method
           response := ({ status_code := 200, reason := "OK" },
             service_response)
           expected_params := expected_params }]) := by
  refine ⟨validate_response_eq_stripped _ _, ?_⟩
  intro q2 h
  by_cases hm : client.has_method method = true
  · simp only [add_response, hm, Bool.not_true, Bool.false_eq_true, if_false] at h
    rcases hval : validate_response (P := P)
        (client.output_shape (client.method_to_api_mapping method))
        service_response with err | u
    · rw [hval] at h
      simp at h
    · rw [hval] at h
      simp at h
      exact h.symm
  · have hm0 : client.has_method method = false := by simpa using hm
    simp [add_response, hm0] at h

theorem add_response_preserves_caller_mapping_witness :
    (validate_response (P := Nat)
        (StubClientModel.output_shape clientNoShape
          (StubClientModel.method_to_api_mapping clientNoShape "describe"))
        [("ResponseMetadata", 1)] =
      validate_stripped
        (StubClientModel.output_shape clientNoShape
          (StubClientModel.method_to_api_mapping clientNoShape "describe"))
        (removeKey [("ResponseMetadata", 1)] "ResponseMetadata")) ∧
    ([{ operation_name := some "Describe"
        response := ({ status_code := 200, reason := "OK" },
          [("ResponseMetadata", 1)])
        expected_params := none }] :
      List (StubEntry Nat (StubHttpResponse × List (String × Nat)))) =
      [] ++
        [{ operation_name := StubClientModel.method_to_api_mapping clientNoShape "describe"
           response := ({ status_code := 200, reason := "OK" },
             [("ResponseMetadata", 1)])
           expected_params := none }] := by
  have h := add_response_preserves_caller_mapping (P := Nat) clientNoShape []
    "describe" [("ResponseMetadata", 1)] none rfl
  exact ⟨h.1, h.2 _ rfl⟩

/-! ## Endpoint factory (`EndpointCreator.create_endpoint`,
`is_valid_endpoint_url`) -/

/-- Characters allowed in a URL scheme after the leading letter
(the standard URL split's `scheme_chars`). -/
def isSchemeChar (c : Char) : Bool :=
  c.isAlpha || c.isDigit || c == '+' || c == '-' || c == '.'

/-- Modelled from `urllib.parse.urlsplit` (standard library, consumed via
`kscore.compat`): split off `scheme:` when the text before the first colon
is a well-formed scheme — a letter followed by scheme characters.  Returns
the scheme (when present) and the remainder of the URL. -/
def splitScheme (url : List Char) : Option (List Char) × List Char :=
  let before := url.takeWhile (· != ':')
  let after := url.dropWhile (· != ':')
  match after with
  | ':' :: rest =>
    match before with
    | [] => (none, url)
    | c :: cs =>
      if c.isAlpha && (c :: cs).all isSchemeChar then
        (some (c :: cs), rest)
      else
        (none, url)
  | _ => (none, url)

/-- Modelled from `urllib.parse.urlsplit`: the `hostname` attribute of the
split result.  A netloc exists only when the remainder after the scheme
starts with `//`; it extends to the first `/`, `?` or `#`; user info up to
the last `@` is dropped; a bracketed IPv6 literal or the part before the
port colon is taken; the result is lowercased; an empty host is `None`. -/
def urlHostname (endpoint_url : String) : Option String :=
  let rest := (splitScheme endpoint_url.toList).2
  match rest with
  | '/' :: '/' :: r =>
    let netloc := r.takeWhile fun c => c != '/' && c != '?' && c != '#'
    let hostinfo := (netloc.reverse.takeWhile (· != '@')).reverse
    let host :=
      if hostinfo.contains '[' then
        ((hostinfo.dropWhile (· != '[')).drop 1).takeWhile (· != ']')
      else
        hostinfo.takeWhile (· != ':')
    if host.isEmpty then none
    else some (String.mk (host.map Char.toLower))
  | _ => none

/-- One label of the hostname pattern of `is_valid_endpoint_url`:
1 to 63 characters, letters, digits or hyphens, neither starting nor
ending with a hyphen. -/
def labelMatches (label : List Char) : Bool :=
  decide (1 ≤ label.length) && decide (label.length ≤ 63) &&
  label.all (fun c => c.isAlpha || c.isDigit || c == '-') &&
  label.head? != some '-' &&
  label.getLast? != some '-'

/-- The hostname regular expression of `is_valid_endpoint_url`: a
dot-separated sequence of valid labels. -/
def hostnameMatches (hostname : List Char) : Bool :=
  (hostname.splitOn '.').all labelMatches

/-- `is_valid_endpoint_url` (`kscore/utils.py`): the URL must parse to a
hostname of at most 255 characters; one trailing dot is dropped; the
remainder must match the hostname pattern. -/
def is_valid_endpoint_url (endpoint_url : String) : Bool :=
  match urlHostname endpoint_url with
  | none => false
  | some hostname =>
    let hs := hostname.toList
    if 255 < hs.length then false
    else
      let hs2 := if hs.getLast? == some '.' then hs.dropLast else hs
      hostnameMatches hs2

/-- The slice of the service model the factory consults. -/
structure ServiceModel where
  endpoint_prefix : String
  deriving DecidableEq

/-- The TLS verification setting the endpoint ends up with: a boolean
flag, or a CA-bundle path. -/
inductive VerifyValue where
  | flag (b : Bool)
  | caBundle (path : String)
  deriving DecidableEq

/-- `EndpointCreator._get_verify_value`: an explicit caller value wins,
else the `REQUESTS_CA_BUNDLE` environment value, else verify-by-default
(`True`). -/
def get_verify_value (verify : Option VerifyValue)
    (requests_ca_bundle : Option String) : VerifyValue :=
  match verify with
  | some v => v
  | none =>
    match requests_ca_bundle with
    | some path => VerifyValue.caBundle path
    | none => VerifyValue.flag true

/-- The fields `Endpoint.__init__` stores from the factory's arguments;
`Proxies` abstracts the proxy mapping returned by the environment
lookup. -/
structure EndpointModel (Proxies : Type) where
  endpoint_prefix : String
  host : String
  verify : VerifyValue
  proxies : Proxies
  timeout : Nat
  deriving DecidableEq

def DEFAULT_TIMEOUT : Nat := 60

/-- `EndpointCreator.create_endpoint`: reject an invalid endpoint URL with
`ValueError("Invalid endpoint: ...")`; otherwise build the endpoint with
`host` set to the URL passed in, proxies resolved from the ambient
environment, and the TLS precedence of `_get_verify_value`.
`region_name` is accepted and, as in the source, unused. -/
def create_endpoint {Proxies : Type} (get_environ_proxies : String → Proxies)
    (requests_ca_bundle : Option String) (service_model : ServiceModel)
    (region_name : String) (endpoint_url : String)
    (verify : Option VerifyValue) (timeout : Nat) :
    Except String (EndpointModel Proxies) :=
  if !(is_valid_endpoint_url endpoint_url) then
    .error ("Invalid endpoint: " ++ endpoint_url)
  else
    .ok { endpoint_prefix := ServiceModel.endpoint_prefix service_model
          host := endpoint_url
          verify := get_verify_value verify requests_ca_bundle
          proxies := get_environ_proxies endpoint_url
          timeout := timeout }

/-- C7 counterexample: the protocol-relative URL `//svc.example.com` has
no scheme at all, yet `create_endpoint` accepts it, because the validator
only inspects the extracted hostname; so the claim's "raises exactly when
the URL lacks a resolvable hostname of at most 255 characters or a
well-formed scheme" is false at this input. -/
theorem create_endpoint_accepts_schemeless :
    (splitScheme "//svc.example.com".toList).1 = none ∧
    is_valid_endpoint_url "//svc.example.com" = true ∧
    create_endpoint (fun _ : String => ()) none { endpoint_prefix := "svc" }
        "cn-beijing-6" "//svc.example.com" none DEFAULT_TIMEOUT =
      .ok { endpoint_prefix := "svc", host := "//svc.example.com",
            verify := VerifyValue.flag true, proxies := (),
            timeout := DEFAULT_TIMEOUT } :=
  ⟨rfl, by decide, rfl⟩

/-- C7 (amended): `create_endpoint` fails exactly when
`is_valid_endpoint_url` rejects the URL — that is, when no hostname of at
most 255 characters matching the hostname pattern (after dropping one
trailing dot) can be extracted; the scheme matters only insofar as it
affects hostname extraction.  On success the executor's `host` is the URL
passed in, unmodified.  In particular `"not a url"` is rejected, and
`"https://svc.example.com"` yields an executor with
`host = "https://svc.example.com"`. -/
theorem create_endpoint_invalid_url {Proxies : Type}
    (get_environ_proxies : String → Proxies)
    (requests_ca_bundle : Option String) (service_model : ServiceModel)
    (region_name : String) (verify : Option VerifyValue) (timeout : Nat) :
    (∀ endpoint_url,
      (∃ msg, create_endpoint get_environ_proxies requests_ca_bundle
          service_model region_name endpoint_url verify timeout =
            .error msg) ↔
        is_valid_endpoint_url endpoint_url = false) ∧
    (∀ endpoint_url ep,
      create_endpoint get_environ_proxies requests_ca_bundle service_model
          region_name endpoint_url verify timeout = .ok ep →
      EndpointModel.host ep = endpoint_url) ∧
    (∀ endpoint_url,
      is_valid_endpoint_url endpoint_url = false →
      urlHostname endpoint_url = none ∨
      (∃ hostname, urlHostname endpoint_url = some hostname ∧
        ¬(hostname.toList.length ≤ 255 ∧
          hostnameMatches
            (if hostname.toList.getLast? == some '.' then
              hostname.toList.dropLast
            else hostname.toList) = true))) ∧
    is_valid_endpoint_url "not a url" = false ∧
    (∃ ep, create_endpoint get_environ_proxies requests_ca_bundle
        service_model region_name "https://svc.example.com" verify timeout =
          .ok ep ∧
      EndpointModel.host ep = "https://svc.example.com") := by
  refine ⟨?_, ?_, ?_, rfl, ?_⟩
  · intro endpoint_url
    cases hb : is_valid_endpoint_url endpoint_url <;>
      simp [create_endpoint, hb]
  · intro endpoint_url ep h
    cases hb : is_valid_endpoint_url endpoint_url
    · rw [create_endpoint, hb] at h
      simp at h
    · rw [create_endpoint, hb] at h
      simp at h
      rw [← h]
  · intro endpoint_url hinvalid
    rcases hh : urlHostname endpoint_url with _ | hostname
    · exact Or.inl rfl
    · refine Or.inr ⟨hostname, rfl, ?_⟩
      rintro ⟨hlen, hmatch⟩
      rw [is_valid_endpoint_url, hh] at hinvalid
      simp only at hinvalid
      rw [if_neg (by omega)] at hinvalid
      rw [hmatch] at hinvalid
      exact absurd hinvalid (by simp)
  · exact ⟨_, rfl, rfl⟩

theorem create_endpoint_invalid_url_witness :
    (∃ msg, create_endpoint (fun _ : String => ()) none
        { endpoint_prefix := "svc" } "cn-beijing-6" "not a url" none
        DEFAULT_TIMEOUT = .error msg) ∧
    is_valid_endpoint_url "not a url" = false ∧
    (∃ ep, create_endpoint (fun _ : String => ()) none
        { endpoint_prefix := "svc" } "cn-beijing-6" "https://svc.example.com"
        none DEFAULT_TIMEOUT = .ok ep ∧
      EndpointModel.host ep = "https://svc.example.com") := by
  have h := create_endpoint_invalid_url (fun _ : String => ()) none
    { endpoint_prefix := "svc" } "cn-beijing-6" none DEFAULT_TIMEOUT
  exact ⟨(h.1 "not a url").mpr h.2.2.2.1, h.2.2.2.1, h.2.2.2.2⟩

end KSCore
